import Mathlib

/-!
Shallow embedding of
`crates/swift-bridge-ir/src/parsed_extern_fn/to_rust_impl_call_swift.rs`:
the receiver-normalization and wrapper-synthesis slice of the swift-bridge
IR transformer.  Rust `syn` AST nodes are embedded as plain inductive
types; `TokenStream` outputs are embedded as the re-parsed structures the
emitted tokens denote (a rewritten parameter is exactly a bare receiver
token; a pass-through parameter is exactly the original argument's
tokens).  The `unwrap` panic on a missing associated type is embedded as
`Option.none`.
-/

/-- A Rust type expression as it appears in bridge-module declarations
(`syn::Type` restricted to the shapes this transformer inspects):
a path type such as `Foo`, `Bar`, `u8`, `str`; a reference `&T` / `&mut T`
(`syn::Type::Reference`, with its mutability flag); or a slice `[T]`. -/
inductive TypeExpr where
  | path (name : String)
  | reference (isMut : Bool) (elem : TypeExpr)
  | slice (elem : TypeExpr)
  deriving DecidableEq

/-- A function argument (`syn::FnArg`): either a bare receiver token
(`self` / `&self` / `&mut self`, i.e. `FnArg::Receiver` with its
reference and mutability flags) or a typed pattern `name: Type`
(`FnArg::Typed`; a typed receiver such as `self: &Foo` parses as
`FnArg::Typed` whose pattern is the identifier `self`). -/
inductive FnArg where
  | receiver (hasRef : Bool) (isMut : Bool)
  | typed (pat : String) (ty : TypeExpr)
  deriving DecidableEq

/-- The parts of `syn::Signature` this transformer reads: the function
name `ident`, the ordered argument list `inputs`, and the return type
`output` (`none` embeds `ReturnType::Default`, i.e. no written `-> T`). -/
structure Signature where
  ident : String
  inputs : List FnArg
  output : Option TypeExpr
  deriving DecidableEq

/-- `ParsedExternFn` (the fields this file reads): the parsed signature,
the optional associated-type link (the declaring type's identifier), and
the initializer flag from `#[swift_bridge(init)]`. -/
structure ParsedExternFn where
  func : Signature
  associated_type : Option String
  is_init : Bool
  deriving DecidableEq

/-- `syn::TypeReference` restricted to what the transformer reads: the
mutability flag and the referenced type (the `and_token` is always `&`). -/
structure TypeReference where
  mutability : Bool
  elem : TypeExpr
  deriving DecidableEq

/-- Modelled from the spec: `crate::pat_type_pat_is_self` (crate root,
not under src/) — receiver detection is by name only: the typed
parameter's declared pattern is the identifier `self`
("its declared name matches the self-convention"). -/
def pat_type_pat_is_self (pat : String) : Bool :=
  pat == "self"

/-- `pat_ty_type_reference`: the typed argument's type viewed as a
reference, when it is one (`Type::Reference(reference) => Some(reference)`,
anything else `None`). -/
def pat_ty_type_reference : TypeExpr → Option TypeReference
  | TypeExpr.reference m e => some ⟨m, e⟩
  | _ => none

/-- `pat_ty_type_reference_if_arg_self`: `self: &Foo` would return `&Foo`;
`_foo: &Foo` would not.  Matches `FnArg::Typed(pat_ty) if
pat_type_pat_is_self(pat_ty)` and then requires the type to be a
reference; every other argument yields `None`. -/
def pat_ty_type_reference_if_arg_self : FnArg → Option TypeReference
  | FnArg.typed pat ty =>
      if pat_type_pat_is_self pat then pat_ty_type_reference ty else none
  | _ => none

/-- The body of the `map` closure inside `params_without_self_type_removd`:
when `pat_ty_type_reference_if_arg_self` fires, emit
`#ref_token #maybe_mut self` (the tokens of a bare reference receiver,
carrying the reference's mutability); otherwise emit the argument's own
tokens unchanged. -/
def normalize_param (arg : FnArg) : FnArg :=
  match pat_ty_type_reference_if_arg_self arg with
  | some reference => FnArg.receiver true reference.mutability
  | none => arg

/-- `params_without_self_type_removd` over the signature's input list:
all of the params, mapped one by one through the rewrite closure and then
joined with commas (the join is the token-level rendering of this list). -/
def params_without_self_type_removd (inputs : List FnArg) : List FnArg :=
  inputs.map normalize_param

/-- Modelled from the spec: `crate::built_in_types::BuiltInType`
(not under src/) — the catalog of recognized built-in types with a known
FFI-safe encoding: primitive numerics, `bool`, `&str`, `&[T]` of a
built-in element, and the unit/no-return case (`null`). -/
inductive BuiltInType where
  | u8 | u16 | u32 | u64 | usize
  | i8 | i16 | i32 | i64 | isize
  | f32 | f64
  | boolean
  | refStr
  | refSlice (elem : BuiltInType)
  | null
  deriving DecidableEq

/-- Modelled from the spec: `BuiltInType::with_type` — classify a type
expression as a recognized built-in, or fail (`none`) when it is neither
a primitive path, `bool`, `&str`, nor `&[T]` of a built-in `T`. -/
def BuiltInType.with_type : TypeExpr → Option BuiltInType
  | TypeExpr.path "u8" => some BuiltInType.u8
  | TypeExpr.path "u16" => some BuiltInType.u16
  | TypeExpr.path "u32" => some BuiltInType.u32
  | TypeExpr.path "u64" => some BuiltInType.u64
  | TypeExpr.path "usize" => some BuiltInType.usize
  | TypeExpr.path "i8" => some BuiltInType.i8
  | TypeExpr.path "i16" => some BuiltInType.i16
  | TypeExpr.path "i32" => some BuiltInType.i32
  | TypeExpr.path "i64" => some BuiltInType.i64
  | TypeExpr.path "isize" => some BuiltInType.isize
  | TypeExpr.path "f32" => some BuiltInType.f32
  | TypeExpr.path "f64" => some BuiltInType.f64
  | TypeExpr.path "bool" => some BuiltInType.boolean
  | TypeExpr.reference false (TypeExpr.path "str") => some BuiltInType.refStr
  | TypeExpr.reference false (TypeExpr.slice e) =>
      match BuiltInType.with_type e with
      | some b => some (BuiltInType.refSlice b)
      | none => none
  | _ => none

/-- Modelled from the spec: `BuiltInType::with_return_type` — a missing
return type (`ReturnType::Default`) classifies as the unit built-in
(spec §4.4: "No return type (unit): emit the raw call expression
directly, unchanged", pinned by the `static_class_method` test in src/);
a written return type classifies via `with_type`. -/
def BuiltInType.with_return_type : Option TypeExpr → Option BuiltInType
  | none => some BuiltInType.null
  | some ty => BuiltInType.with_type ty

/-- One call argument handed to the linked external symbol.
`selfHandle` embeds `self.0` (the receiver's raw handle);
`var x` embeds the bare identifier `x`; `rustStrFromStr x` embeds
`swift_bridge::string::RustStr::from_str(x)` (the string
argument-position conversion); `rustSliceFrom x` embeds the slice
argument-position conversion applied to `x`. -/
inductive CallArg where
  | selfHandle
  | var (name : String)
  | rustStrFromStr (name : String)
  | rustSliceFrom (name : String)
  deriving DecidableEq

/-- A Rust expression as emitted by the wrapper synthesizer.
`rawCall f args` embeds the tokens `unsafe { f(args) }`;
`methodToStr e` embeds `e.to_str()`; `methodAsSlice e` embeds
`e.as_slice()`; `ctor N e` embeds the constructor call `N ( e )`. -/
inductive RustExpr where
  | rawCall (linkedFnName : String) (args : List CallArg)
  | methodToStr (e : RustExpr)
  | methodAsSlice (e : RustExpr)
  | ctor (tyName : String) (e : RustExpr)
  deriving DecidableEq

/-- Modelled from the spec: `BuiltInType::wrap_swift_to_rust_arg_ffi_friendly`
— the return-position conversion wrapping the raw FFI call result back
into a native value: `&str` gets `.to_str()`, `&[T]` gets `.as_slice()`
(pinned by the `call_with_str_arg_and_return_str` and `converts_slice`
tests in src/), and numerics / bool / unit pass through unchanged. -/
def BuiltInType.wrap_swift_to_rust_arg_ffi_friendly :
    BuiltInType → RustExpr → RustExpr
  | BuiltInType.refStr, e => RustExpr.methodToStr e
  | BuiltInType.refSlice _, e => RustExpr.methodAsSlice e
  | _, e => e

/-- Modelled from the spec: the argument-position conversion of a
built-in (spec §4.1/§4.3), applied to the parameter's identifier:
`&str` becomes `swift_bridge::string::RustStr::from_str(arg)` (pinned by
the `call_with_str_arg_and_return_str` test in src/), slices get the
slice argument conversion, and numerics / bool pass through unchanged. -/
def BuiltInType.convert_rust_to_ffi_arg : BuiltInType → String → CallArg
  | BuiltInType.refStr, x => CallArg.rustStrFromStr x
  | BuiltInType.refSlice _, x => CallArg.rustSliceFrom x
  | _, x => CallArg.var x

/-- Modelled from the spec: `to_call_rust_args` (not under src/) — the
call-argument list handed to the linked external symbol, in declaration
order: a receiver (bare token or `self`-named typed parameter)
contributes its raw handle `self.0`; every other parameter is marshalled
via its built-in's argument-position conversion when it classifies as a
built-in, and passed as the bare identifier otherwise ("receiver handle
first, then declared parameters in original order", spec §4.3). -/
def ParsedExternFn.to_call_rust_args (f : ParsedExternFn) : List CallArg :=
  f.func.inputs.map fun arg =>
    match arg with
    | FnArg.receiver _ _ => CallArg.selfHandle
    | FnArg.typed pat ty =>
        if pat_type_pat_is_self pat then CallArg.selfHandle
        else
          match BuiltInType.with_type ty with
          | some b => b.convert_rust_to_ffi_arg pat
          | none => CallArg.var pat

/-- Modelled from the spec: the linked-symbol derivation (spec §4.5,
the doc comment and tests in src/): the external symbol for `(Foo, new)`
is `__swift_bridge__Foo_new`. -/
def ParsedExternFn.swift_linked_fn_new (f : ParsedExternFn) : String :=
  "__swift_bridge__" ++ f.associated_type.getD "" ++ "_" ++ f.func.ident

/-- The synthesized wrapper function, `pub fn name(params) ret { body }`. -/
structure WrapperFn where
  name : String
  params : List FnArg
  ret : Option TypeExpr
  body : RustExpr
  deriving DecidableEq

/-- `ParsedExternFn::to_impl_fn_calls_swift`: the wrapper synthesizer.
The source unconditionally unwraps `self.associated_type` (line 34);
that panic is embedded as `none`.  Otherwise: normalize the parameters,
build the raw call `unsafe { linked_fn(call_args) }`, then either apply
the built-in return conversion (when `BuiltInType::with_return_type`
classifies the output) or wrap the raw call in `#ty_name ( .. )` — the
constructor named after the associated type — and emit
`pub fn #fn_name(#params) #ret { #inner }`. -/
def ParsedExternFn.to_impl_fn_calls_swift (f : ParsedExternFn) :
    Option WrapperFn :=
  match f.associated_type with
  | none => none
  | some ty_name =>
      let fn_name := f.func.ident
      let ret := f.func.output
      let params := params_without_self_type_removd f.func.inputs
      let call_args := f.to_call_rust_args
      let linked_fn_name := f.swift_linked_fn_new
      let inner := RustExpr.rawCall linked_fn_name call_args
      let inner :=
        match BuiltInType.with_return_type ret with
        | some built_in => built_in.wrap_swift_to_rust_arg_ffi_friendly inner
        | none => RustExpr.ctor ty_name inner
      some { name := fn_name, params := params, ret := ret, body := inner }

/-! ## Claim theorems -/

/-- C1 (code bug): the receiver rewrite handles only the reference forms.
`self: &Foo` is rewritten to `&self` and `self: &mut Foo` to `&mut self`,
but the by-value form `self: Foo` — which the function's own comment
(lines 60–64 of the source) documents as becoming bare `self` — is passed
through unchanged, because `pat_ty_type_reference_if_arg_self` returns
`None` for a non-reference type and the `else` branch re-emits the
argument's tokens.  This theorem evaluates the code at the failing input
and at the two working inputs. -/
theorem c1_self_by_value_not_rewritten :
    params_without_self_type_removd
        [FnArg.typed "self" (TypeExpr.path "Foo")]
      = [FnArg.typed "self" (TypeExpr.path "Foo")]
    ∧ params_without_self_type_removd
        [FnArg.typed "self" (TypeExpr.path "Foo")]
      ≠ [FnArg.receiver false false]
    ∧ params_without_self_type_removd
        [FnArg.typed "self" (TypeExpr.reference false (TypeExpr.path "Foo"))]
      = [FnArg.receiver true false]
    ∧ params_without_self_type_removd
        [FnArg.typed "self" (TypeExpr.reference true (TypeExpr.path "Foo"))]
      = [FnArg.receiver true true] := by
  decide

/-- C2 counterexample: there is no MalformedReceiver rejection.  A `self`
parameter typed as a reference to the unrelated type `Bar` (the
associated type being `Foo`) is taken by the receiver-rewrite branch and
becomes `&self`; a `self` parameter of unrelated value type `Bar` falls
through to the pass-through branch unchanged; and the full synthesizer
still emits a wrapper for such a declaration instead of failing. -/
theorem c2_no_malformed_receiver_check :
    params_without_self_type_removd
        [FnArg.typed "self" (TypeExpr.reference false (TypeExpr.path "Bar"))]
      = [FnArg.receiver true false]
    ∧ params_without_self_type_removd
        [FnArg.typed "self" (TypeExpr.path "Bar")]
      = [FnArg.typed "self" (TypeExpr.path "Bar")]
    ∧ (ParsedExternFn.to_impl_fn_calls_swift
        ⟨⟨"f",
          [FnArg.typed "self" (TypeExpr.reference false (TypeExpr.path "Bar"))],
          none⟩,
         some "Foo", false⟩).isSome = true := by
  decide

/-- C2 (amended): receiver handling never errors and never inspects the
referenced type.  A `self`-named parameter with a reference type to any
pointee is rewritten to the bare reference receiver, preserving only the
mutability; a `self`-named parameter with any non-reference type (path or
slice, related to the associated type or not) is passed through
unchanged. -/
theorem c2_receiver_branch_ignores_pointee
    (m : Bool) (t : TypeExpr) (name : String) :
    normalize_param (FnArg.typed "self" (TypeExpr.reference m t))
      = FnArg.receiver true m
    ∧ normalize_param (FnArg.typed "self" (TypeExpr.path name))
      = FnArg.typed "self" (TypeExpr.path name)
    ∧ normalize_param (FnArg.typed "self" (TypeExpr.slice t))
      = FnArg.typed "self" (TypeExpr.slice t) := by
  refine ⟨?_, ?_, ?_⟩ <;>
    simp [normalize_param, pat_ty_type_reference_if_arg_self,
      pat_type_pat_is_self, pat_ty_type_reference]

/-- C3 counterexample: wrapper synthesis does not abort when the return
type fails classification.  `UnknownType` is neither a recognized
built-in nor a declared type, yet `to_impl_fn_calls_swift` emits a
complete wrapper, wrapping the raw call in the associated type's
constructor `Foo ( .. )`. -/
theorem c3_no_abort_on_unclassified_return :
    ParsedExternFn.to_impl_fn_calls_swift
        ⟨⟨"f", [], some (TypeExpr.path "UnknownType")⟩, some "Foo", false⟩
      = some ⟨"f", [], some (TypeExpr.path "UnknownType"),
          RustExpr.ctor "Foo" (RustExpr.rawCall "__swift_bridge__Foo_f" [])⟩ := by
  decide

/-- C3 (amended): wrapper synthesis at this entry point is total — for
every declaration whose associated-type link is present it emits a
complete wrapper; a type that fails built-in classification is not
rejected but treated as opaque.  No UnsupportedType abort path exists in
`to_impl_fn_calls_swift` (its Rust return type is `TokenStream`, not
`Result`). -/
theorem c3_synthesis_total (f : ParsedExternFn) (ty : String)
    (h : f.associated_type = some ty) :
    (f.to_impl_fn_calls_swift).isSome = true := by
  simp [ParsedExternFn.to_impl_fn_calls_swift, h]

/-- Witness for `c3_synthesis_total` at a concrete declaration. -/
theorem c3_synthesis_total_witness :
    ((⟨⟨"f", [], some (TypeExpr.path "UnknownReturn")⟩, some "Foo", false⟩ :
        ParsedExternFn).to_impl_fn_calls_swift).isSome = true :=
  c3_synthesis_total _ "Foo" rfl

/-- C4 counterexample: an initializer declaration with no explicit return
type is NOT treated as returning the associated type.  For the
initializer `fn new()` on `Foo` (output absent), the synthesized body is
the bare raw call — `BuiltInType::with_return_type` classifies the
missing return type as unit and the identity return conversion applies —
not the constructor wrap `Foo ( .. )`; the initializer flag is never read
by `to_impl_fn_calls_swift`. -/
theorem c4_init_without_return_type_not_wrapped :
    ParsedExternFn.to_impl_fn_calls_swift
        ⟨⟨"new", [], none⟩, some "Foo", true⟩
      = some ⟨"new", [], none,
          RustExpr.rawCall "__swift_bridge__Foo_new" []⟩
    ∧ (ParsedExternFn.to_impl_fn_calls_swift
        ⟨⟨"new", [], none⟩, some "Foo", true⟩).map WrapperFn.body
      ≠ some (RustExpr.ctor "Foo"
          (RustExpr.rawCall "__swift_bridge__Foo_new" [])) := by
  decide

/-- C4 (amended): initializer declarations get no special treatment — the
constructor wrap fires exactly when the written return type fails
built-in classification.  The `class_initializer` test's declaration
writes `-> Foo` explicitly, and with that explicit return type the
synthesized body is `Foo ( unsafe { __swift_bridge__Foo_new() } )`,
exactly as the test in src/ expects. -/
theorem c4_init_with_explicit_return_wrapped :
    ParsedExternFn.to_impl_fn_calls_swift
        ⟨⟨"new", [], some (TypeExpr.path "Foo")⟩, some "Foo", true⟩
      = some ⟨"new", [], some (TypeExpr.path "Foo"),
          RustExpr.ctor "Foo"
            (RustExpr.rawCall "__swift_bridge__Foo_new" [])⟩ := by
  decide

/-- C5 counterexample: the single-argument constructor wrapping an opaque
return value is named after the ASSOCIATED type, not after the opaque
return type.  For `fn get_bar() -> Bar` declared on `Foo`, the body is
`Foo ( unsafe { .. } )`, not `Bar ( unsafe { .. } )`. -/
theorem c5_ctor_named_after_associated_type :
    (ParsedExternFn.to_impl_fn_calls_swift
        ⟨⟨"get_bar", [], some (TypeExpr.path "Bar")⟩,
         some "Foo", false⟩).map WrapperFn.body
      = some (RustExpr.ctor "Foo"
          (RustExpr.rawCall "__swift_bridge__Foo_get_bar" []))
    ∧ (ParsedExternFn.to_impl_fn_calls_swift
        ⟨⟨"get_bar", [], some (TypeExpr.path "Bar")⟩,
         some "Foo", false⟩).map WrapperFn.body
      ≠ some (RustExpr.ctor "Bar"
          (RustExpr.rawCall "__swift_bridge__Foo_get_bar" [])) := by
  decide

/-- C5 (amended): for every declaration whose return type fails built-in
classification (the opaque case), the synthesized body wraps the raw
unsafe call in a single-argument constructor named after the declaration's
associated type — which names the return type only when the declaration
returns its own associated type, as an initializer does. -/
theorem c5_opaque_return_wrapped_in_associated_ctor
    (f : ParsedExternFn) (ty_name : String)
    (h : f.associated_type = some ty_name)
    (hret : BuiltInType.with_return_type f.func.output = none) :
    (f.to_impl_fn_calls_swift).map WrapperFn.body
      = some (RustExpr.ctor ty_name
          (RustExpr.rawCall f.swift_linked_fn_new f.to_call_rust_args)) := by
  simp [ParsedExternFn.to_impl_fn_calls_swift, h, hret]

/-- Witness for `c5_opaque_return_wrapped_in_associated_ctor` at a
concrete declaration returning an opaque type. -/
theorem c5_opaque_return_witness :
    ((⟨⟨"make_widget", [], some (TypeExpr.path "Widget")⟩,
        some "Factory", false⟩ :
        ParsedExternFn).to_impl_fn_calls_swift).map WrapperFn.body
      = some (RustExpr.ctor "Factory"
          (RustExpr.rawCall
            (ParsedExternFn.swift_linked_fn_new
              ⟨⟨"make_widget", [], some (TypeExpr.path "Widget")⟩,
               some "Factory", false⟩)
            (ParsedExternFn.to_call_rust_args
              ⟨⟨"make_widget", [], some (TypeExpr.path "Widget")⟩,
               some "Factory", false⟩))) :=
  c5_opaque_return_wrapped_in_associated_ctor _ "Factory" rfl rfl

/-- C6: for `fn some_function(&self, arg: &str) -> &str` on `Foo`, the
synthesized wrapper keeps the signature, the call-argument list is
exactly `(self.0, swift_bridge::string::RustStr::from_str(arg))` —
receiver raw handle first, then the declared parameter converted by the
string argument-position rule — and the string return-position conversion
`.to_str()` is applied to the raw unsafe call result, exactly as the
`call_with_str_arg_and_return_str` test in src/ expects. -/
theorem c6_str_arg_and_str_return :
    ParsedExternFn.to_impl_fn_calls_swift
        ⟨⟨"some_function",
          [FnArg.receiver true false,
           FnArg.typed "arg" (TypeExpr.reference false (TypeExpr.path "str"))],
          some (TypeExpr.reference false (TypeExpr.path "str"))⟩,
         some "Foo", false⟩
      = some ⟨"some_function",
          [FnArg.receiver true false,
           FnArg.typed "arg" (TypeExpr.reference false (TypeExpr.path "str"))],
          some (TypeExpr.reference false (TypeExpr.path "str")),
          RustExpr.methodToStr
            (RustExpr.rawCall "__swift_bridge__Foo_some_function"
              [CallArg.selfHandle, CallArg.rustStrFromStr "arg"])⟩ := by
  decide

/-- Helper: a typed parameter whose name is not `self` is left unchanged
by the rewrite closure. -/
theorem normalize_param_of_ne_self (name : String) (ty : TypeExpr)
    (h : name ≠ "self") :
    normalize_param (FnArg.typed name ty) = FnArg.typed name ty := by
  have hb : pat_type_pat_is_self name = false := by
    simpa [pat_type_pat_is_self] using h
  simp [normalize_param, pat_ty_type_reference_if_arg_self, hb]

/-- C7: receiver detection is by name only.  Every typed parameter whose
declared name is not `self` is passed through the normalization
completely unchanged — same name, same type — for any type whatsoever,
including a reference to the associated type. -/
theorem c7_non_receiver_passthrough (name : String) (ty : TypeExpr)
    (h : name ≠ "self") :
    normalize_param (FnArg.typed name ty) = FnArg.typed name ty :=
  normalize_param_of_ne_self name ty h

/-- Witness for `c7_non_receiver_passthrough`: a parameter incidentally
typed as a reference to the associated type `Foo` but named `other` is
not rewritten. -/
theorem c7_non_receiver_passthrough_witness :
    normalize_param
        (FnArg.typed "other" (TypeExpr.reference false (TypeExpr.path "Foo")))
      = FnArg.typed "other" (TypeExpr.reference false (TypeExpr.path "Foo")) :=
  c7_non_receiver_passthrough "other"
    (TypeExpr.reference false (TypeExpr.path "Foo")) (by decide)

/-- C8: receiver normalization is a pure positional rewrite — the output
list has the same length as the input list, and the entry at every
position is the image of the input entry at that same position, so no
parameter is added, removed, or reordered. -/
theorem c8_positional_rewrite (args : List FnArg) (i : Nat) :
    (params_without_self_type_removd args).length = args.length
    ∧ (params_without_self_type_removd args)[i]?
        = args[i]?.map normalize_param := by
  constructor
  · simp [params_without_self_type_removd]
  · simp [params_without_self_type_removd]

/-- C9: receiver normalization is idempotent on an already-normalized
parameter list.  When no parameter is a typed pattern named `self` —
in particular when the receiver is already one of the bare tokens `self`,
`&self`, `&mut self` (`FnArg.receiver`) and the remaining parameters
carry ordinary names — the normalization returns every parameter,
the receiver included, unchanged. -/
theorem c9_idempotent_on_normalized (args : List FnArg)
    (h : ∀ name ty, FnArg.typed name ty ∈ args → name ≠ "self") :
    params_without_self_type_removd args = args := by
  unfold params_without_self_type_removd
  induction args with
  | nil => rfl
  | cons a rest ih =>
      have ha : normalize_param a = a := by
        cases a with
        | receiver r m => rfl
        | typed name ty =>
            exact normalize_param_of_ne_self name ty
              (h name ty (List.mem_cons_self _ _))
      have hrest : ∀ name ty, FnArg.typed name ty ∈ rest → name ≠ "self" :=
        fun name ty hm => h name ty (List.mem_cons_of_mem _ hm)
      simp [ha, ih hrest]

/-- Witness for `c9_idempotent_on_normalized` at the already-normalized
list `(&self, arg: u8)`. -/
theorem c9_idempotent_witness :
    params_without_self_type_removd
        [FnArg.receiver true false, FnArg.typed "arg" (TypeExpr.path "u8")]
      = [FnArg.receiver true false, FnArg.typed "arg" (TypeExpr.path "u8")] :=
  c9_idempotent_on_normalized _ (by
    intro name ty hm
    rcases List.mem_cons.mp hm with h1 | h1
    · exact FnArg.noConfusion h1
    · rcases List.mem_cons.mp h1 with h2 | h2
      · injection h2 with hn ht
        subst hn
        decide
      · exact absurd h2 (List.not_mem_nil _))

/-- C10: the associated-type link is a precondition of wrapper synthesis:
`to_impl_fn_calls_swift` unconditionally unwraps `self.associated_type`
(line 34), so on a declaration whose link is absent it panics (embedded
as `none`), and on every declaration whose link is present it produces a
wrapper. -/
theorem c10_associated_type_precondition (f : ParsedExternFn) :
    (f.associated_type = none → f.to_impl_fn_calls_swift = none)
    ∧ (∀ ty, f.associated_type = some ty →
        (f.to_impl_fn_calls_swift).isSome = true) := by
  constructor
  · intro h
    simp [ParsedExternFn.to_impl_fn_calls_swift, h]
  · intro ty h
    simp [ParsedExternFn.to_impl_fn_calls_swift, h]

/-- Witness for `c10_associated_type_precondition`: a declaration with no
associated type panics (yields `none`); the same declaration with the
link `Foo` present synthesizes a wrapper. -/
theorem c10_associated_type_witness :
    ParsedExternFn.to_impl_fn_calls_swift
        ⟨⟨"free_fn", [], none⟩, none, false⟩ = none
    ∧ (ParsedExternFn.to_impl_fn_calls_swift
        ⟨⟨"free_fn", [], none⟩, some "Foo", false⟩).isSome = true :=
  ⟨(c10_associated_type_precondition _).1 rfl,
   (c10_associated_type_precondition _).2 "Foo" rfl⟩
